import Mathlib

/-!
Shallow embedding of `src/resources/models.py` (the `resources` package:
a declarative HTTP resource dispatcher).  Pure values model the Python
objects: header mappings are association lists, datetimes are epoch
seconds (`Nat`), the werkzeug `Response` object is a record of status,
headers, body data and the internal `_accept_type` slot.
-/

namespace Resources

/-- Two-digit zero padding, as Python "%02d". -/
def pad2 (n : Nat) : String :=
  if n < 10 then "0" ++ toString n else toString n

/-- Month abbreviations used by werkzeug's date dump (1-based). -/
def monthName : Nat → String
  | 1 => "Jan" | 2 => "Feb" | 3 => "Mar" | 4 => "Apr"
  | 5 => "May" | 6 => "Jun" | 7 => "Jul" | 8 => "Aug"
  | 9 => "Sep" | 10 => "Oct" | 11 => "Nov" | 12 => "Dec"
  | _ => ""

/-- Weekday abbreviations, Monday = 0 (Python `tm_wday` convention). -/
def weekdayName : Nat → String
  | 0 => "Mon" | 1 => "Tue" | 2 => "Wed" | 3 => "Thu"
  | 4 => "Fri" | 5 => "Sat" | 6 => "Sun"
  | _ => ""

/-- Gregorian civil date (year, month, day) from days since 1970-01-01. -/
def civilFromDays (days : Nat) : Nat × Nat × Nat :=
  let z := days + 719468
  let era := z / 146097
  let doe := z % 146097
  let yoe := (doe - doe / 1460 + doe / 36524 - doe / 146096) / 365
  let y := yoe + era * 400
  let doy := doe - (365 * yoe + yoe / 4 - yoe / 100)
  let mp := (5 * doy + 2) / 153
  let d := doy - (153 * mp + 2) / 5 + 1
  let m := if mp < 10 then mp + 3 else mp - 9
  (if m ≤ 2 then y + 1 else y, m, d)

/-- werkzeug's `http_date`: RFC-1123 formatting of an instant (modelled as
seconds since the Unix epoch), e.g. `Thu, 01 Jan 1970 00:00:00 GMT`. -/
def http_date (t : Nat) : String :=
  let days := t / 86400
  let rem := t % 86400
  let c := civilFromDays days
  weekdayName ((days + 3) % 7) ++ ", " ++ pad2 c.2.2 ++ " " ++ monthName c.2.1
    ++ " " ++ toString c.1 ++ " " ++ pad2 (rem / 3600) ++ ":"
    ++ pad2 (rem % 3600 / 60) ++ ":" ++ pad2 (rem % 60) ++ " GMT"

/-- Python `', '.join(...)`. -/
def joinComma : List String → String
  | [] => ""
  | [x] => x
  | x :: y :: rest => x ++ ", " ++ joinComma (y :: rest)

/-- Lexicographic comparison of character lists by code point, the order
Python's `sorted` uses on the (ASCII) method-name strings. -/
def charListLe : List Char → List Char → Bool
  | [], _ => true
  | _ :: _, [] => false
  | a :: as, b :: bs =>
    if a.toNat < b.toNat then true
    else if b.toNat < a.toNat then false
    else charListLe as bs

/-- Lexicographic `≤` on strings (by code point). -/
def strLe (a b : String) : Bool :=
  charListLe a.data b.data

/-- Strict lexicographic `<` on character lists (by code point). -/
def charListLt : List Char → List Char → Bool
  | [], [] => false
  | [], _ :: _ => true
  | _ :: _, [] => false
  | a :: as, b :: bs =>
    if a.toNat < b.toNat then true
    else if b.toNat < a.toNat then false
    else charListLt as bs

/-- Strict lexicographic `<` on strings (by code point). -/
def strLt (a b : String) : Bool :=
  charListLt a.data b.data

/-- Insert a string into an ascending sorted list (stable). -/
def insertString (s : String) : List String → List String
  | [] => [s]
  | x :: xs => if strLe s x then s :: x :: xs else x :: insertString s xs

/-- Python `sorted(...)` on a list of strings (ascending lexicographic). -/
def sortStrings : List String → List String
  | [] => []
  | x :: xs => insertString x (sortStrings xs)

/-- ASCII lowercasing of one character (header names are ASCII). -/
def lowerChar (ch : Char) : Char :=
  if 65 ≤ ch.toNat ∧ ch.toNat ≤ 90 then Char.ofNat (ch.toNat + 32) else ch

/-- ASCII lowercasing of a header name, for werkzeug's case-insensitive
header mappings. -/
def lowerKey (s : String) : String :=
  String.mk (s.data.map lowerChar)

/-- Case-insensitive lookup in a header association list (werkzeug header
mappings are case-insensitive). -/
def headerGet (hs : List (String × String)) (k : String) : Option String :=
  match hs with
  | [] => none
  | (k', v) :: rest => if lowerKey k' = lowerKey k then some v else headerGet rest k

/-- Python `key in headers`. -/
def headerHas (hs : List (String × String)) (k : String) : Bool :=
  (headerGet hs k).isSome

/-- Case-insensitive replace-or-append of a header value, modelling
`response.headers[key] = value`. -/
def setH : List (String × String) → String → String → List (String × String)
  | [], k, v => [(k, v)]
  | (k', v') :: rest, k, v =>
    if lowerKey k' = lowerKey k then (k, v) :: rest else (k', v') :: setH rest k v

/-- Per-request read-only view supplied by the transport layer (werkzeug
`Request`): method, headers, declared content length, content type, the
parameter-stripped lowercased mimetype, and the parsed `Accept` header as
(mimetype, quality) pairs in header order.  There are no floats in the
model, so qualities are in thousandths: `q=1` is `1000`, `q=0.5` is `500`.
An absent `content_length` is modelled as `0` (both are falsy in Python). -/
structure Request where
  method : String
  headers : List (String × String) := []
  content_length : Nat := 0
  content_type : String := ""
  mimetype : String := ""
  accept : List (String × Nat) := []

/-- The mutable werkzeug `Response`: status (`Response()` defaults to 200),
headers, body `data` and the private `_accept_type` slot written by content
negotiation. -/
structure Response where
  status : Nat := 200
  headers : List (String × String) := []
  data : String := ""
  accept_type : Option String := none

/-- Set one response header. -/
def Response.setHeader (resp : Response) (k v : String) : Response :=
  { resp with headers := setH resp.headers k v }

/-- Set the response status code (`response.status = code`). -/
def setStatus (resp : Response) (n : Nat) : Response :=
  { resp with status := n }

/-! werkzeug's `MIMEAccept` (the type of `request.accept_mimetypes`); an
external dependency of the repository, modelled from werkzeug's
`datastructures.Accept`/`MIMEAccept` of the era the repository pins. -/

/-- Insert into a list of (mimetype, quality) pairs sorted descending by
(quality, value), stably; models werkzeug's
`sorted([(b, a) for a, b in values], reverse=True)`. -/
def insertAccept (e : String × Nat) : List (String × Nat) → List (String × Nat)
  | [] => [e]
  | x :: xs =>
    if e.2 > x.2 ∨ (e.2 = x.2 ∧ strLt x.1 e.1 = true) then e :: x :: xs
    else x :: insertAccept e xs

/-- The quality-sorted preference list stored inside werkzeug's `Accept`
object: highest quality first, ties broken by value descending. -/
def accept_mimetypes (req : Request) : List (String × Nat) :=
  req.accept.foldl (fun acc e => insertAccept e acc) []

/-- Split a character list at the first slash; the whole list with an
empty remainder when there is none. -/
def splitSlash : List Char → List Char × List Char
  | [] => ([], [])
  | c :: cs =>
    if c.toNat = 47 then ([], cs)
    else
      let r := splitSlash cs
      (c :: r.1, r.2)

/-- Python `x.split('/', 1)`. -/
def splitMime (x : String) : String × String :=
  let p := splitSlash x.data
  (String.mk p.1, String.mk p.2)

/-- The `_normalize` helper of `MIMEAccept._value_matches`: lowercase, map
a bare `*` to (`*`, `*`), otherwise split at the first slash. -/
def normalizeMime (x : String) : String × String :=
  let x := lowerKey x
  if x = "*" then ("*", "*") else splitMime x

/-- werkzeug `MIMEAccept._value_matches value item`.  In werkzeug a `value`
without a slash, or of shape `*/sub`, raises `ValueError`; the only value
the repository ever looks up is the literal `*/*`, so those error cases are
modelled as a non-match. -/
def value_matches (value item : String) : Bool :=
  if ¬ value.data.contains ('/') then false
  else
    let v := normalizeMime value
    if v.1 = "*" ∧ v.2 ≠ "*" then false
    else if ¬ item.data.contains ('/') then false
    else
      let i := normalizeMime item
      if i.1 = "*" ∧ i.2 ≠ "*" then false
      else
        (i.1 = "*" ∧ i.2 = "*") ∨ (v.1 = "*" ∧ v.2 = "*") ∨
          (i.1 = v.1 ∧ (i.2 = "*" ∨ v.2 = "*" ∨ i.2 = v.2))

/-- werkzeug `Accept.quality` / `accept_mimetypes[key]`: the quality of the
first entry of the sorted list matching `key`, `0` when none matches. -/
def acceptQuality (l : List (String × Nat)) (key : String) : Nat :=
  match l with
  | [] => 0
  | (item, q) :: rest => if value_matches key item then q else acceptQuality rest key

/-- The `unavailable` class attribute: `False` (default), `True`, an `int`
seconds delta, or a `datetime` (modelled as epoch seconds). -/
inductive Unavailable where
  | no
  | yes
  | secs (n : Int)
  | time (t : Nat)
deriving DecidableEq

/-- Python truthiness of the `unavailable` attribute (`False`/`0` falsy;
`True`, nonzero ints and datetimes truthy). -/
def truthy : Unavailable → Bool
  | .no => false
  | .yes => true
  | .secs n => n != 0
  | .time _ => true

/-- A `Resource` class as configured after `ResourceMetaclass` ran: the
declarative attributes of `Resource` plus its overridable hook methods.
The type-list defaulting the metaclass performs (`supported_content_types`
falling back to `supported_accept_types`, `supported_patch_types` to
`supported_content_types`) is resolved at construction, so each field
holds its final value.  Hooks whose source defaults are no-ops are fields
so that theorems quantify over arbitrary overrides; `get_etag` returns
`none` for the Python default (`None`).  `get_last_modified` is total: the
Python default returns `None`, which would send werkzeug's `http_date` to
the wall clock, so resources enabling `use_last_modified` are modelled as
always supplying the instant.  `handler m` models
`getattr(self, request.method.lower())`; returning `some s` models a
non-`None` handler return value. -/
structure Resource where
  unavailable : Unavailable := .no
  allowed_methods : List String := []
  rate_limit_count : Option Nat := none
  rate_limit_seconds : Nat := 60 * 60
  max_request_entity_length : Option Nat := none
  require_conditional_request : Bool := false
  use_etags : Bool := true
  use_last_modified : Bool := false
  supported_accept_types : List String := ["application/json"]
  supported_content_types : List String := ["application/json"]
  supported_patch_types : List String := ["application/json"]
  check_unauthorized : Request → Bool := fun _ => false
  check_forbidden : Request → Bool := fun _ => false
  check_too_many_requests : Request → Bool := fun _ => false
  check_not_found : Request → Bool := fun _ => false
  check_gone : Request → Bool := fun _ => false
  content_encoding_supported : Request → Bool := fun _ => true
  content_language_supported : Request → Bool := fun _ => true
  get_etag : Request → Option String := fun _ => none
  get_last_modified : Request → Nat := fun _ => 0
  handler : String → Request → Response → Response × Option String :=
    fun _ _ resp => (resp, none)

/-- `Resource.check_service_unavailable`: 503 when `unavailable` is truthy;
`Retry-After` is set to the integer itself when it is a positive `int`, to
`http_date` of the instant when it is a `datetime`, and not at all
otherwise (a bare `True`, or a negative int). -/
def check_service_unavailable (r : Resource) (resp : Response) : Bool × Response :=
  if truthy r.unavailable then
    let retry : Option String :=
      match r.unavailable with
      | .secs n => if n > 0 then some (toString n) else none
      | .time t => some (http_date t)
      | _ => none
    match retry with
    | some s => (true, resp.setHeader ("Retry-After") s)
    | none => (true, resp)
  else (false, resp)

/-- `Resource.check_request_entity_too_large`; only invoked when
`max_request_entity_length` is truthy, so `getD 0` is never taken. -/
def check_request_entity_too_large (r : Resource) (req : Request) : Bool :=
  req.content_length > r.max_request_entity_length.getD 0

/-- `Resource.check_method_not_allowed`: on failure the `Allow` header is
set to the comma-joined alphabetically sorted allowed methods. -/
def check_method_not_allowed (r : Resource) (req : Request) (resp : Response) :
    Bool × Response :=
  if ! r.allowed_methods.contains req.method then
    (true, resp.setHeader ("Allow") (joinComma (sortStrings r.allowed_methods)))
  else (false, resp)

/-- `Resource.content_type_supported`: exact membership of the request's
mimetype in `supported_content_types`. -/
def content_type_supported (r : Resource) (req : Request) : Bool :=
  r.supported_content_types.contains req.mimetype

/-- `Resource.check_unsupported_media_type`: only consults the content
type/encoding/language hooks when a `Content-Type` header is present with
a non-empty (truthy) value. -/
def check_unsupported_media_type (r : Resource) (req : Request) : Bool :=
  if headerHas req.headers ("content-type") && req.content_type != "" then
    if ! content_type_supported r req then true
    else if headerHas req.headers ("content-encoding") && ! r.content_encoding_supported req then
      true
    else if headerHas req.headers ("content-language") && ! r.content_language_supported req then
      true
    else false
  else false

/-- The final fallback of `Resource.accept_type_supported`: succeed, and
record the first supported accept type (when any) as the chosen one. -/
def accept_default (r : Resource) (resp : Response) : Bool × Response :=
  match r.supported_accept_types with
  | [] => (true, resp)
  | t :: _ => (true, { resp with accept_type := some t })

/-- The loop of `Resource.accept_type_supported`: first entry of the
quality-sorted client preference list present in the supported list. -/
def findAccepted : List (String × Nat) → List String → Option String
  | [], _ => none
  | (mime, _) :: rest, supported =>
    if supported.contains mime then some mime else findAccepted rest supported

/-- `Resource.accept_type_supported`: with an `Accept` header, choose the
first resolving client preference that is supported; with no overlap fail
unless werkzeug's quality lookup for the wildcard is zero, in which case
(and also with no `Accept` header) fall back to the first supported type. -/
def accept_type_supported (r : Resource) (req : Request) (resp : Response) :
    Bool × Response :=
  if headerHas req.headers ("accept") then
    match findAccepted (accept_mimetypes req) r.supported_accept_types with
    | some mime => (true, { resp with accept_type := some mime })
    | none =>
      if acceptQuality (accept_mimetypes req) ("*/*") != 0 then (false, resp)
      else accept_default r resp
  else accept_default r resp

/-- `Resource.accept_charset_supported` (default: always supported). -/
def accept_charset_supported (_r : Resource) (_req : Request) : Bool := true

/-- `Resource.accept_encoding_supported` (default: always supported). -/
def accept_encoding_supported (_r : Resource) (_req : Request) : Bool := true

/-- `Resource.accept_language_supported` (default: always supported). -/
def accept_language_supported (_r : Resource) (_req : Request) : Bool := true

/-- `Resource.check_not_acceptable`: accept-type negotiation, then the
pass-through charset/encoding/language variants. -/
def check_not_acceptable (r : Resource) (req : Request) (resp : Response) :
    Bool × Response :=
  match accept_type_supported r req resp with
  | (false, resp) => (true, resp)
  | (true, resp) =>
    if headerHas req.headers ("accept-language") && ! accept_language_supported r req then
      (true, resp)
    else if headerHas req.headers ("accept-charset") && ! accept_charset_supported r req then
      (true, resp)
    else if headerHas req.headers ("accept-encoding") && ! accept_encoding_supported r req then
      (true, resp)
    else (false, resp)

/-- `Resource.check_precondition_required`: for a conditional-required
resource the `If-Match` (ETags) or `If-Unmodified-Since` (Last-Modified)
header must be present; on failure guidance text naming the required
header is written to the response body. -/
def check_precondition_required (r : Resource) (req : Request) (resp : Response) :
    Bool × Response :=
  if r.use_etags && ! headerHas req.headers ("if-match") then
    (true, { resp with
      data := "This request is required to be conditional; try using \"If-Match\"" })
  else if r.use_last_modified && ! headerHas req.headers ("if-unmodified-since") then
    (true, { resp with
      data := "This request is required to be conditional; try using \"If-Unmodified-Since\"" })
  else (false, resp)

/-- `Resource.check_precondition_failed`: `If-Match` differing from the
current ETag (Python `'...' != None` is true, so a mismatch also arises
when `get_etag` returns `None`), or `If-Unmodified-Since` differing from
the `http_date`-formatted current last-modified value. -/
def check_precondition_failed (r : Resource) (req : Request) : Bool :=
  let etagMismatch :=
    r.use_etags && headerHas req.headers ("if-match") &&
      (match headerGet req.headers ("if-match"), r.get_etag req with
       | some v, some t => v != t
       | some _, none => true
       | none, _ => false)
  let lmMismatch :=
    r.use_last_modified && headerHas req.headers ("if-unmodified-since") &&
      (match headerGet req.headers ("if-unmodified-since") with
       | some v => v != http_date (r.get_last_modified req)
       | none => false)
  etagMismatch || lmMismatch

/-- `Resource.options`, the default OPTIONS handler. -/
def options_handler (r : Resource) (resp : Response) : Response :=
  let resp :=
    if r.allowed_methods.contains ("PATCH") then
      resp.setHeader ("Accept-Patch") (joinComma r.supported_patch_types)
    else resp
  let resp := resp.setHeader ("Allow") (joinComma (sortStrings r.allowed_methods))
  let resp := resp.setHeader ("Content-Length") (toString 0)
  let resp := resp.setHeader ("Cache-Control") ("no-cache")
  resp.setHeader ("Pragma") ("no-cache")

/-- The ordered checks of `Resource.process`, plus the OPTIONS
short-circuit and the final method-handler invocation. -/
inductive Check where
  | c503 | c401 | c403 | c429 | options | c415 | c413 | c405 | c406
  | c404 | c410 | c428 | c412 | c304 | handler
deriving DecidableEq

/-- Position of each check in the pipeline's total order. -/
def checkIndex : Check → Nat
  | .c503 => 0 | .c401 => 1 | .c403 => 2 | .c429 => 3 | .options => 4
  | .c415 => 5 | .c413 => 6 | .c405 => 7 | .c406 => 8 | .c404 => 9
  | .c410 => 10 | .c428 => 11 | .c412 => 12 | .c304 => 13 | .handler => 14

/-- The status code a failing check sets (none for the OPTIONS
short-circuit and the handler, which do not set a status). -/
def checkCode : Check → Option Nat
  | .c503 => some 503 | .c401 => some 401 | .c403 => some 403 | .c429 => some 429
  | .options => none
  | .c415 => some 415 | .c413 => some 413 | .c405 => some 405 | .c406 => some 406
  | .c404 => some 404 | .c410 => some 410 | .c428 => some 428 | .c412 => some 412
  | .c304 => some 304 | .handler => none

/-- A list of checks is evaluated in pipeline order when the positions of
its entries are strictly increasing — equivalently, when it is a
subsequence of the full ordered check list 503, 401, 403, 429, OPTIONS,
415, 413, 405, 406, 404, 410, 428, 412, 304, handler. -/
def ordered : List Check → Bool
  | [] => true
  | [_] => true
  | a :: b :: rest => (decide (checkIndex a < checkIndex b)) && ordered (b :: rest)

/-- Result of one `process` run: the response, the handler's return value
(`none` when the pipeline short-circuited or the handler returned `None`),
the checks evaluated in order, and the check that terminated the pipeline
(`none` when the method handler ran). -/
structure Outcome where
  response : Response
  output : Option String
  trace : List Check
  failed : Option Check

/-- Gate of the 429 check: `if self.rate_limit_count and
self.rate_limit_seconds:` (both truthy). -/
def rlGate (r : Resource) : Bool :=
  (match r.rate_limit_count with | some n => n != 0 | none => false) &&
    r.rate_limit_seconds != 0

/-- Gate of the 413 check: `if self.max_request_entity_length:`. -/
def maxGate (r : Resource) : Bool :=
  match r.max_request_entity_length with | some n => n != 0 | none => false

/-- The `If-None-Match` comparison of the conditional GET/HEAD block of
`Resource.process`: `request.headers['if-none-match'] == etag` (a string
never equals Python `None`). -/
def ifNoneMatchEq (r : Resource) (req : Request) : Bool :=
  match headerGet req.headers ("if-none-match"), r.get_etag req with
  | some v, some t => v == t
  | _, _ => false

/-- The `If-Modified-Since` comparison of the conditional GET/HEAD block
of `Resource.process`: string equality of the raw header value against
the `http_date`-formatted current last-modified instant. -/
def ifModifiedSinceEq (r : Resource) (req : Request) : Bool :=
  match headerGet req.headers ("if-modified-since") with
  | some v => v == http_date (r.get_last_modified req)
  | none => false

/-- A singleton trace entry for a check whose evaluation is gated on `b`. -/
def gatedTrace (b : Bool) (c : Check) : List Check :=
  if b then [c] else []

/-- `Resource.process`: the ordered dispatch pipeline.  Status codes are
the literal values of `resources/http.py`'s `codes` (modelled from the
spec, §6, as that file is not under `src/`); likewise `methods.options`
etc. are the literal method names.  The response object is threaded
through the checks exactly as the single mutable werkzeug response is in
the source.  The trace records each check as it is evaluated (gated
checks that are skipped are not recorded; the OPTIONS short-circuit is
recorded when taken); at each terminal the trace is written out flat,
using the fact that the terminal's own guard was just evaluated true. -/
def process (r : Resource) (req : Request) (resp0 : Response) : Outcome :=
  let su := check_service_unavailable r resp0
  let resp := su.2
  if su.1 then ⟨setStatus resp 503, none, [.c503], some .c503⟩
  else if r.check_unauthorized req then
    ⟨setStatus resp 401, none, [.c503, .c401], some .c401⟩
  else if r.check_forbidden req then
    ⟨setStatus resp 403, none, [.c503, .c401, .c403], some .c403⟩
  else if rlGate r && r.check_too_many_requests req then
    ⟨setStatus resp 429, none, [.c503, .c401, .c403, .c429], some .c429⟩
  else if req.method == "OPTIONS" && r.allowed_methods.contains ("OPTIONS") then
    ⟨options_handler r resp, none,
      [Check.c503, .c401, .c403] ++ gatedTrace (rlGate r) Check.c429 ++ [Check.options],
      some .options⟩
  else
  let hasBody := req.content_length != 0
  if hasBody && check_unsupported_media_type r req then
    ⟨setStatus resp 415, none,
      [Check.c503, .c401, .c403] ++ gatedTrace (rlGate r) Check.c429 ++ [Check.c415],
      some .c415⟩
  else if hasBody && maxGate r && check_request_entity_too_large r req then
    ⟨setStatus resp 413, none,
      [Check.c503, .c401, .c403] ++ gatedTrace (rlGate r) Check.c429 ++
        [Check.c415, Check.c413],
      some .c413⟩
  else
  let tr9 := [Check.c503, .c401, .c403] ++ gatedTrace (rlGate r) Check.c429 ++
    gatedTrace hasBody Check.c415 ++ gatedTrace (hasBody && maxGate r) Check.c413
  let mna := check_method_not_allowed r req resp
  if mna.1 then ⟨setStatus mna.2 405, none, tr9 ++ [Check.c405], some .c405⟩
  else
  let na := check_not_acceptable r req mna.2
  if na.1 then
    ⟨setStatus na.2 406, none, tr9 ++ [Check.c405, Check.c406], some .c406⟩
  else
  let resp2 := na.2
  if r.check_not_found req then
    ⟨setStatus resp2 404, none, tr9 ++ [Check.c405, Check.c406, Check.c404],
      some .c404⟩
  else if r.check_gone req then
    ⟨setStatus resp2 410, none,
      tr9 ++ [Check.c405, Check.c406, Check.c404, Check.c410], some .c410⟩
  else
  let tr13 := tr9 ++ [Check.c405, Check.c406, Check.c404, Check.c410]
  let condGate := r.require_conditional_request && (req.method == "PUT" || req.method == "PATCH")
  let pr := if condGate then check_precondition_required r req resp2 else (false, resp2)
  if pr.1 then
    ⟨setStatus ((pr.2.setHeader ("Cache-Control") ("no-cache")).setHeader ("Pragma")
        ("no-cache")) 428, none, tr13 ++ [Check.c428], some .c428⟩
  else
  let resp3 := pr.2
  let putPatch := req.method == "PUT" || req.method == "PATCH"
  if putPatch && check_precondition_failed r req then
    ⟨setStatus resp3 412, none,
      tr13 ++ gatedTrace condGate Check.c428 ++ [Check.c412], some .c412⟩
  else
  let getHead := req.method == "GET" || req.method == "HEAD"
  let tr15 := tr13 ++ gatedTrace condGate Check.c428 ++ gatedTrace putPatch Check.c412
  if getHead && r.use_etags && headerHas req.headers ("if-none-match") &&
      ifNoneMatchEq r req then
    ⟨setStatus resp3 304, none, tr15 ++ [Check.c304], some .c304⟩
  else if getHead && r.use_last_modified && headerHas req.headers ("if-modified-since") &&
      ifModifiedSinceEq r req then
    ⟨setStatus resp3 304, none, tr15 ++ [Check.c304], some .c304⟩
  else
  let hout := r.handler req.method req resp3
  ⟨hout.1, hout.2, tr15 ++ gatedTrace getHead Check.c304 ++ [Check.handler], none⟩

/-- `Resource.__call__`: a fresh `Response()`, `process`, and if the
handler output was not `None` it becomes the response data. -/
def resource_call (r : Resource) (req : Request) : Response :=
  let o := process r req {}
  match o.output with
  | some d => { o.response with data := d }
  | none => o.response

/-- Modelled from the spec: the HTTP method vocabulary (`methods` of
`resources/http.py`, which is not under `src/`); §4 and the glossary name
GET, HEAD, OPTIONS, POST, PUT, DELETE and PATCH as the method set. -/
def http_methods : List String :=
  ["GET", "HEAD", "OPTIONS", "POST", "PUT", "DELETE", "PATCH"]

/-- The validation loop of `ResourceMetaclass.__new__` over an explicit
`allowed_methods` list: the first listed method without a usable
(callable) handler raises `ValueError` (modelled as `Except.error` naming
the offending method). -/
def validateMethods (usable : String → Bool) : List String → Except String Unit
  | [] => .ok ()
  | m :: rest => if usable m then validateMethods usable rest else .error m

/-- The metaclass post-processing `if 'GET' not in allowed_methods and
'HEAD' in allowed_methods: allowed_methods.remove('HEAD')`; Python's
`list.remove` deletes only the first occurrence, as does `List.erase`. -/
def removeHeadWithoutGet (l : List String) : List String :=
  if ¬ l.contains ("GET") ∧ l.contains ("HEAD") then l.erase ("HEAD") else l

/-- `ResourceMetaclass.__new__`'s derivation of `allowed_methods`:
implicit discovery over `http_methods` when the attribute is absent
(`none`) or falsy (`some []`), otherwise validation of the explicit list;
then the HEAD-without-GET removal. -/
def derive_allowed_methods (usable : String → Bool)
    (explicit : Option (List String)) : Except String (List String) :=
  match explicit with
  | none => .ok (removeHeadWithoutGet (http_methods.filter (fun m => usable m)))
  | some l =>
    if l = [] then .ok (removeHeadWithoutGet (http_methods.filter (fun m => usable m)))
    else
      match validateMethods usable l with
      | .ok _ => .ok (removeHeadWithoutGet l)
      | .error m => .error m

/-! Theorems -/

/-- The validation loop succeeds exactly when every listed method has a
usable handler. -/
theorem validateMethods_ok_iff (usable : String → Bool) (l : List String) :
    validateMethods usable l = Except.ok () ↔ ∀ m ∈ l, usable m = true := by
  induction l with
  | nil => simp [validateMethods]
  | cons m rest ih =>
    by_cases h : usable m = true
    · simp [validateMethods, h, ih]
    · simp only [Bool.not_eq_true] at h
      simp [validateMethods, h]

/-- C4: class construction with an explicit `allowed_methods` list
succeeds iff every listed method has a corresponding callable handler;
a missing handler is an `Except.error` at registration (derivation) time.
Request processing (`process`) is a total function that never consults the
handler capability table, so this configuration error cannot arise there. -/
theorem explicit_allowed_methods_validated (usable : String → Bool) (l : List String) :
    (∃ res, derive_allowed_methods usable (some l) = Except.ok res) ↔
      ∀ m ∈ l, usable m = true := by
  by_cases hl : l = []
  · subst hl
    simp [derive_allowed_methods]
  · simp only [derive_allowed_methods, if_neg hl]
    cases hv : validateMethods usable l with
    | ok u =>
      cases u
      rw [validateMethods_ok_iff] at hv
      simpa using hv
    | error e =>
      constructor
      · rintro ⟨res, hres⟩
        simp at hres
      · intro hall
        rw [← validateMethods_ok_iff usable l] at hall
        rw [hall] at hv
        cases hv

/-- C3 counterexample: a resource class declaring
`allowed_methods = ('HEAD', 'HEAD')` (with the inherited `head`/`options`
handlers callable, so validation passes) yields the tuple `('HEAD',)` —
`list.remove` deletes only the first `'HEAD'` — which contains `HEAD`
without `GET`, falsifying the claimed invariant. -/
theorem head_without_get_counterexample :
    derive_allowed_methods (fun m => m == "HEAD" || m == "OPTIONS")
        (some ["HEAD", "HEAD"]) = Except.ok ["HEAD"] ∧
      ("HEAD" ∈ ["HEAD"] ∧ "GET" ∉ ["HEAD"]) := by
  constructor
  · rfl
  · simp

/-- The HEAD-removal post-processing step establishes the invariant when
`HEAD` occurs at most once in its input. -/
theorem removeHeadWithoutGet_spec (l : List String) (hdup : List.count "HEAD" l ≤ 1) :
    (removeHeadWithoutGet l).contains "HEAD" = true →
    (removeHeadWithoutGet l).contains "GET" = true := by
  unfold removeHeadWithoutGet
  split
  · rename_i hcond
    intro hmem
    exfalso
    have hh : ("HEAD" : String) ∈ l := by simpa using hcond.2
    have hmem' : ("HEAD" : String) ∈ l.erase "HEAD" := by simpa using hmem
    have h0 : List.count "HEAD" (l.erase "HEAD") = 0 := by
      have h1 : 0 < List.count "HEAD" l := List.count_pos_iff.mpr hh
      rw [List.count_erase_self]
      omega
    exact List.count_eq_zero.mp h0 hmem'
  · rename_i hcond
    intro hmem
    have hh : ("HEAD" : String) ∈ l := by simpa using hmem
    by_cases hg : ("GET" : String) ∈ l
    · simpa using hg
    · exact absurd ⟨by simpa using hg, by simpa using hh⟩ hcond

/-- C3 amended: the derived `allowed_methods` never contains `HEAD`
without `GET`, provided that an explicit list mentions `HEAD` at most once
(implicit discovery always does; the counterexample shows a duplicated
explicit `HEAD` survives the single `remove`). -/
theorem head_without_get_amended (usable : String → Bool)
    (explicit : Option (List String)) (res : List String)
    (hok : derive_allowed_methods usable explicit = Except.ok res)
    (hdup : ∀ e, explicit = some e → List.count "HEAD" e ≤ 1) :
    res.contains "HEAD" = true → res.contains "GET" = true := by
  have himpl : List.count "HEAD" (http_methods.filter (fun m => usable m)) ≤ 1 := by
    calc List.count "HEAD" (http_methods.filter (fun m => usable m)) ≤
        List.count "HEAD" http_methods := (List.filter_sublist http_methods).count_le "HEAD"
      _ = 1 := by decide
  cases explicit with
  | none =>
    simp only [derive_allowed_methods, Except.ok.injEq] at hok
    subst hok
    exact removeHeadWithoutGet_spec _ himpl
  | some l =>
    by_cases hl : l = []
    · subst hl
      simp only [derive_allowed_methods, if_true] at hok
      simp only [Except.ok.injEq] at hok
      subst hok
      exact removeHeadWithoutGet_spec _ himpl
    · simp only [derive_allowed_methods, if_neg hl] at hok
      cases hv : validateMethods usable l with
      | ok u =>
        rw [hv] at hok
        simp only [Except.ok.injEq] at hok
        subst hok
        exact removeHeadWithoutGet_spec _ (hdup l rfl)
      | error e =>
        rw [hv] at hok
        cases hok

/-- C3 amended, witness: a class defining `get` and `head` handlers and no
explicit list derives `('GET', 'HEAD')`, which satisfies the invariant. -/
theorem head_without_get_amended_witness :
    derive_allowed_methods (fun m => m == "GET" || m == "HEAD" || m == "OPTIONS") none =
        Except.ok ["GET", "HEAD", "OPTIONS"] ∧
      (["GET", "HEAD", "OPTIONS"].contains "HEAD" = true →
        ["GET", "HEAD", "OPTIONS"].contains "GET" = true) := by
  refine ⟨by rfl, ?_⟩
  exact head_without_get_amended (fun m => m == "GET" || m == "HEAD" || m == "OPTIONS") none
    (["GET", "HEAD", "OPTIONS"]) (by rfl) (by intro e he; cases he)

/-- C9: a truthy `unavailable` short-circuits the dispatch at the very
first check — the trace is exactly the 503 check, so no other check runs
and the handler is never invoked — with status 503; `Retry-After` is the
seconds delta for a positive integer, the HTTP-date for a datetime, and
absent for a bare `True`. -/
theorem unavailable_503_first (r : Resource) (req : Request)
    (h : truthy r.unavailable = true) :
    (process r req {}).failed = some Check.c503 ∧
    (process r req {}).trace = [Check.c503] ∧
    (process r req {}).response.status = 503 ∧
    (∀ n : Int, r.unavailable = Unavailable.secs n → 0 < n →
      headerGet (process r req {}).response.headers ("Retry-After") = some (toString n)) ∧
    (∀ t : Nat, r.unavailable = Unavailable.time t →
      headerGet (process r req {}).response.headers ("Retry-After") = some (http_date t)) ∧
    (r.unavailable = Unavailable.yes →
      headerGet (process r req {}).response.headers ("Retry-After") = none) := by
  cases hu : r.unavailable with
  | no => rw [hu] at h; cases h
  | yes =>
    simp [process, check_service_unavailable, truthy, hu, setStatus, headerGet]
  | secs n =>
    rw [hu] at h
    simp only [truthy, bne_iff_ne, ne_eq] at h
    by_cases hn : 0 < n
    · have hn' : n > 0 := hn
      simp [process, check_service_unavailable, truthy, hu, hn', h, setStatus, Response.setHeader,
        setH, headerGet]
    · have h0 : ¬ n > 0 := hn
      simp [process, check_service_unavailable, truthy, hu, h, h0, setStatus, headerGet]
      omega
  | time t =>
    simp [process, check_service_unavailable, truthy, hu, setStatus, Response.setHeader, setH,
      headerGet]

/-- C9 witness: a resource unavailable for 120 seconds answers 503 with
`Retry-After: 120` and an empty trace beyond the 503 check; instantiates
the theorem at a concrete resource and request. -/
theorem unavailable_503_first_witness :
    (process { unavailable := Unavailable.secs 120 } { method := "GET" } {}).response.status =
        503 ∧
      headerGet (process { unavailable := Unavailable.secs 120 } { method := "GET" }
          {}).response.headers ("Retry-After") = some (toString (120 : Int)) := by
  have h := unavailable_503_first { unavailable := Unavailable.secs 120 } { method := "GET" }
    (by rfl)
  exact ⟨h.2.2.1, h.2.2.2.1 120 rfl (by omega)⟩

set_option maxHeartbeats 8000000 in
/-- C2: the dispatch pipeline evaluates its checks in the fixed order
503, 401, 403, 429, OPTIONS short-circuit, 415, 413, 405, 406, 404, 410,
428, 412, 304, handler (the evaluated-check trace always has strictly
increasing pipeline positions, i.e. it is a subsequence of that order);
when a check fails, it is the last check evaluated — nothing after it
runs, the method handler is never invoked — and the response status is
that check's code; the handler runs (as the final step) exactly when no
check failed. -/
theorem process_strict_order_short_circuit (r : Resource) (req : Request) (resp : Response) :
    ordered (process r req resp).trace = true ∧
    (∀ c, (process r req resp).failed = some c →
      (process r req resp).trace.getLast? = some c ∧
      Check.handler ∉ (process r req resp).trace ∧
      ∀ n, checkCode c = some n → (process r req resp).response.status = n) ∧
    ((process r req resp).failed = none →
      (process r req resp).trace.getLast? = some Check.handler) := by
  simp only [process, gatedTrace]
  by_cases hA : (check_service_unavailable r resp).1 = true
  · simp only [hA, if_true, if_false]
    refine ⟨by decide, fun c hc => ?_, fun hn => ?_⟩
    · cases hc <;> exact ⟨by decide, by decide, fun n hn2 => by cases hn2 <;> rfl⟩
    · cases hn <;> decide
  simp only [hA, Bool.false_eq_true, Bool.false_and, Bool.true_and, Bool.and_false, Bool.and_true, Bool.false_or, Bool.true_or, Bool.or_false, Bool.or_true, if_true, if_false]
  by_cases hB : r.check_unauthorized req = true
  · simp only [hB, if_true, if_false]
    refine ⟨by decide, fun c hc => ?_, fun hn => ?_⟩
    · cases hc <;> exact ⟨by decide, by decide, fun n hn2 => by cases hn2 <;> rfl⟩
    · cases hn <;> decide
  simp only [hB, Bool.false_eq_true, Bool.false_and, Bool.true_and, Bool.and_false, Bool.and_true, Bool.false_or, Bool.true_or, Bool.or_false, Bool.or_true, if_true, if_false]
  by_cases hC : r.check_forbidden req = true
  · simp only [hC, if_true, if_false]
    refine ⟨by decide, fun c hc => ?_, fun hn => ?_⟩
    · cases hc <;> exact ⟨by decide, by decide, fun n hn2 => by cases hn2 <;> rfl⟩
    · cases hn <;> decide
  simp only [hC, Bool.false_eq_true, Bool.false_and, Bool.true_and, Bool.and_false, Bool.and_true, Bool.false_or, Bool.true_or, Bool.or_false, Bool.or_true, if_true, if_false]
  by_cases hD : (rlGate r && r.check_too_many_requests req) = true
  · simp only [hD, if_true, if_false]
    refine ⟨by decide, fun c hc => ?_, fun hn => ?_⟩
    · cases hc <;> exact ⟨by decide, by decide, fun n hn2 => by cases hn2 <;> rfl⟩
    · cases hn <;> decide
  simp only [hD, Bool.false_eq_true, Bool.false_and, Bool.true_and, Bool.and_false, Bool.and_true, Bool.false_or, Bool.true_or, Bool.or_false, Bool.or_true, if_true, if_false]
  by_cases hE : (req.method == "OPTIONS" && r.allowed_methods.contains ("OPTIONS")) = true
  · simp only [hE, if_true, if_false]
    rcases Bool.eq_false_or_eq_true (rlGate r) with h0 | h0 <;>
    simp only [h0, Bool.false_eq_true, Bool.false_and, Bool.true_and, Bool.and_false, Bool.and_true, Bool.false_or, Bool.true_or, Bool.or_false, Bool.or_true, if_true, if_false] <;>
    (refine ⟨by decide, fun c hc => ?_, fun hn => ?_⟩ <;>
        first
          | (cases hc <;> exact ⟨by decide, by decide, fun n hn2 => by cases hn2 <;> rfl⟩)
          | (cases hn <;> decide))
  simp only [hE, Bool.false_eq_true, Bool.false_and, Bool.true_and, Bool.and_false, Bool.and_true, Bool.false_or, Bool.true_or, Bool.or_false, Bool.or_true, if_true, if_false]
  by_cases hF : ((req.content_length != 0) && check_unsupported_media_type r req) = true
  · simp only [hF, if_true, if_false]
    rcases Bool.eq_false_or_eq_true (rlGate r) with h0 | h0 <;>
    simp only [h0, Bool.false_eq_true, Bool.false_and, Bool.true_and, Bool.and_false, Bool.and_true, Bool.false_or, Bool.true_or, Bool.or_false, Bool.or_true, if_true, if_false] <;>
    (refine ⟨by decide, fun c hc => ?_, fun hn => ?_⟩ <;>
        first
          | (cases hc <;> exact ⟨by decide, by decide, fun n hn2 => by cases hn2 <;> rfl⟩)
          | (cases hn <;> decide))
  simp only [hF, Bool.false_eq_true, Bool.false_and, Bool.true_and, Bool.and_false, Bool.and_true, Bool.false_or, Bool.true_or, Bool.or_false, Bool.or_true, if_true, if_false]
  by_cases hG : ((req.content_length != 0) && maxGate r && check_request_entity_too_large r req) = true
  · simp only [hG, if_true, if_false]
    rcases Bool.eq_false_or_eq_true (rlGate r) with h0 | h0 <;>
    simp only [h0, Bool.false_eq_true, Bool.false_and, Bool.true_and, Bool.and_false, Bool.and_true, Bool.false_or, Bool.true_or, Bool.or_false, Bool.or_true, if_true, if_false] <;>
    (refine ⟨by decide, fun c hc => ?_, fun hn => ?_⟩ <;>
        first
          | (cases hc <;> exact ⟨by decide, by decide, fun n hn2 => by cases hn2 <;> rfl⟩)
          | (cases hn <;> decide))
  simp only [hG, Bool.false_eq_true, Bool.false_and, Bool.true_and, Bool.and_false, Bool.and_true, Bool.false_or, Bool.true_or, Bool.or_false, Bool.or_true, if_true, if_false]
  by_cases hH : (check_method_not_allowed r req (check_service_unavailable r resp).2).1 = true
  · simp only [hH, if_true, if_false]
    rcases Bool.eq_false_or_eq_true (rlGate r) with h0 | h0 <;>
    rcases Bool.eq_false_or_eq_true ((req.content_length != 0)) with h1 | h1 <;>
    rcases Bool.eq_false_or_eq_true (maxGate r) with h2 | h2 <;>
    simp only [h0, h1, h2, Bool.false_eq_true, Bool.false_and, Bool.true_and, Bool.and_false, Bool.and_true, Bool.false_or, Bool.true_or, Bool.or_false, Bool.or_true, if_true, if_false] <;>
    (refine ⟨by decide, fun c hc => ?_, fun hn => ?_⟩ <;>
        first
          | (cases hc <;> exact ⟨by decide, by decide, fun n hn2 => by cases hn2 <;> rfl⟩)
          | (cases hn <;> decide))
  simp only [hH, Bool.false_eq_true, Bool.false_and, Bool.true_and, Bool.and_false, Bool.and_true, Bool.false_or, Bool.true_or, Bool.or_false, Bool.or_true, if_true, if_false]
  by_cases hI : (check_not_acceptable r req (check_method_not_allowed r req (check_service_unavailable r resp).2).2).1 = true
  · simp only [hI, if_true, if_false]
    rcases Bool.eq_false_or_eq_true (rlGate r) with h0 | h0 <;>
    rcases Bool.eq_false_or_eq_true ((req.content_length != 0)) with h1 | h1 <;>
    rcases Bool.eq_false_or_eq_true (maxGate r) with h2 | h2 <;>
    simp only [h0, h1, h2, Bool.false_eq_true, Bool.false_and, Bool.true_and, Bool.and_false, Bool.and_true, Bool.false_or, Bool.true_or, Bool.or_false, Bool.or_true, if_true, if_false] <;>
    (refine ⟨by decide, fun c hc => ?_, fun hn => ?_⟩ <;>
        first
          | (cases hc <;> exact ⟨by decide, by decide, fun n hn2 => by cases hn2 <;> rfl⟩)
          | (cases hn <;> decide))
  simp only [hI, Bool.false_eq_true, Bool.false_and, Bool.true_and, Bool.and_false, Bool.and_true, Bool.false_or, Bool.true_or, Bool.or_false, Bool.or_true, if_true, if_false]
  by_cases hJ : r.check_not_found req = true
  · simp only [hJ, if_true, if_false]
    rcases Bool.eq_false_or_eq_true (rlGate r) with h0 | h0 <;>
    rcases Bool.eq_false_or_eq_true ((req.content_length != 0)) with h1 | h1 <;>
    rcases Bool.eq_false_or_eq_true (maxGate r) with h2 | h2 <;>
    simp only [h0, h1, h2, Bool.false_eq_true, Bool.false_and, Bool.true_and, Bool.and_false, Bool.and_true, Bool.false_or, Bool.true_or, Bool.or_false, Bool.or_true, if_true, if_false] <;>
    (refine ⟨by decide, fun c hc => ?_, fun hn => ?_⟩ <;>
        first
          | (cases hc <;> exact ⟨by decide, by decide, fun n hn2 => by cases hn2 <;> rfl⟩)
          | (cases hn <;> decide))
  simp only [hJ, Bool.false_eq_true, Bool.false_and, Bool.true_and, Bool.and_false, Bool.and_true, Bool.false_or, Bool.true_or, Bool.or_false, Bool.or_true, if_true, if_false]
  by_cases hK : r.check_gone req = true
  · simp only [hK, if_true, if_false]
    rcases Bool.eq_false_or_eq_true (rlGate r) with h0 | h0 <;>
    rcases Bool.eq_false_or_eq_true ((req.content_length != 0)) with h1 | h1 <;>
    rcases Bool.eq_false_or_eq_true (maxGate r) with h2 | h2 <;>
    simp only [h0, h1, h2, Bool.false_eq_true, Bool.false_and, Bool.true_and, Bool.and_false, Bool.and_true, Bool.false_or, Bool.true_or, Bool.or_false, Bool.or_true, if_true, if_false] <;>
    (refine ⟨by decide, fun c hc => ?_, fun hn => ?_⟩ <;>
        first
          | (cases hc <;> exact ⟨by decide, by decide, fun n hn2 => by cases hn2 <;> rfl⟩)
          | (cases hn <;> decide))
  simp only [hK, Bool.false_eq_true, Bool.false_and, Bool.true_and, Bool.and_false, Bool.and_true, Bool.false_or, Bool.true_or, Bool.or_false, Bool.or_true, if_true, if_false]
  by_cases hL : ((if (r.require_conditional_request && (req.method == "PUT" || req.method == "PATCH")) = true then check_precondition_required r req (check_not_acceptable r req (check_method_not_allowed r req (check_service_unavailable r resp).2).2).2 else (false, (check_not_acceptable r req (check_method_not_allowed r req (check_service_unavailable r resp).2).2).2))).1 = true
  · simp only [hL, if_true, if_false]
    rcases Bool.eq_false_or_eq_true (rlGate r) with h0 | h0 <;>
    rcases Bool.eq_false_or_eq_true ((req.content_length != 0)) with h1 | h1 <;>
    rcases Bool.eq_false_or_eq_true (maxGate r) with h2 | h2 <;>
    simp only [h0, h1, h2, Bool.false_eq_true, Bool.false_and, Bool.true_and, Bool.and_false, Bool.and_true, Bool.false_or, Bool.true_or, Bool.or_false, Bool.or_true, if_true, if_false] <;>
    (refine ⟨by decide, fun c hc => ?_, fun hn => ?_⟩ <;>
        first
          | (cases hc <;> exact ⟨by decide, by decide, fun n hn2 => by cases hn2 <;> rfl⟩)
          | (cases hn <;> decide))
  simp only [hL, Bool.false_eq_true, Bool.false_and, Bool.true_and, Bool.and_false, Bool.and_true, Bool.false_or, Bool.true_or, Bool.or_false, Bool.or_true, if_true, if_false]
  by_cases hM : ((req.method == "PUT" || req.method == "PATCH") && check_precondition_failed r req) = true
  · simp only [hM, if_true, if_false]
    rcases Bool.eq_false_or_eq_true (rlGate r) with h0 | h0 <;>
    rcases Bool.eq_false_or_eq_true ((req.content_length != 0)) with h1 | h1 <;>
    rcases Bool.eq_false_or_eq_true (maxGate r) with h2 | h2 <;>
    rcases Bool.eq_false_or_eq_true (r.require_conditional_request) with h3 | h3 <;>
    rcases Bool.eq_false_or_eq_true ((req.method == "PUT" || req.method == "PATCH")) with h4 | h4 <;>
    simp only [h0, h1, h2, h3, h4, Bool.false_eq_true, Bool.false_and, Bool.true_and, Bool.and_false, Bool.and_true, Bool.false_or, Bool.true_or, Bool.or_false, Bool.or_true, if_true, if_false] <;>
    (refine ⟨by decide, fun c hc => ?_, fun hn => ?_⟩ <;>
        first
          | (cases hc <;> exact ⟨by decide, by decide, fun n hn2 => by cases hn2 <;> rfl⟩)
          | (cases hn <;> decide))
  simp only [hM, Bool.false_eq_true, Bool.false_and, Bool.true_and, Bool.and_false, Bool.and_true, Bool.false_or, Bool.true_or, Bool.or_false, Bool.or_true, if_true, if_false]
  by_cases hN : ((req.method == "GET" || req.method == "HEAD") && r.use_etags && headerHas req.headers ("if-none-match") && ifNoneMatchEq r req) = true
  · simp only [hN, if_true, if_false]
    rcases Bool.eq_false_or_eq_true (rlGate r) with h0 | h0 <;>
    rcases Bool.eq_false_or_eq_true ((req.content_length != 0)) with h1 | h1 <;>
    rcases Bool.eq_false_or_eq_true (maxGate r) with h2 | h2 <;>
    rcases Bool.eq_false_or_eq_true (r.require_conditional_request) with h3 | h3 <;>
    rcases Bool.eq_false_or_eq_true ((req.method == "PUT" || req.method == "PATCH")) with h4 | h4 <;>
    simp only [h0, h1, h2, h3, h4, Bool.false_eq_true, Bool.false_and, Bool.true_and, Bool.and_false, Bool.and_true, Bool.false_or, Bool.true_or, Bool.or_false, Bool.or_true, if_true, if_false] <;>
    (refine ⟨by decide, fun c hc => ?_, fun hn => ?_⟩ <;>
        first
          | (cases hc <;> exact ⟨by decide, by decide, fun n hn2 => by cases hn2 <;> rfl⟩)
          | (cases hn <;> decide))
  simp only [hN, Bool.false_eq_true, Bool.false_and, Bool.true_and, Bool.and_false, Bool.and_true, Bool.false_or, Bool.true_or, Bool.or_false, Bool.or_true, if_true, if_false]
  by_cases hO : ((req.method == "GET" || req.method == "HEAD") && r.use_last_modified && headerHas req.headers ("if-modified-since") && ifModifiedSinceEq r req) = true
  · simp only [hO, if_true, if_false]
    rcases Bool.eq_false_or_eq_true (rlGate r) with h0 | h0 <;>
    rcases Bool.eq_false_or_eq_true ((req.content_length != 0)) with h1 | h1 <;>
    rcases Bool.eq_false_or_eq_true (maxGate r) with h2 | h2 <;>
    rcases Bool.eq_false_or_eq_true (r.require_conditional_request) with h3 | h3 <;>
    rcases Bool.eq_false_or_eq_true ((req.method == "PUT" || req.method == "PATCH")) with h4 | h4 <;>
    simp only [h0, h1, h2, h3, h4, Bool.false_eq_true, Bool.false_and, Bool.true_and, Bool.and_false, Bool.and_true, Bool.false_or, Bool.true_or, Bool.or_false, Bool.or_true, if_true, if_false] <;>
    (refine ⟨by decide, fun c hc => ?_, fun hn => ?_⟩ <;>
        first
          | (cases hc <;> exact ⟨by decide, by decide, fun n hn2 => by cases hn2 <;> rfl⟩)
          | (cases hn <;> decide))
  simp only [hO, Bool.false_eq_true, Bool.false_and, Bool.true_and, Bool.and_false, Bool.and_true, Bool.false_or, Bool.true_or, Bool.or_false, Bool.or_true, if_true, if_false]
  rcases Bool.eq_false_or_eq_true (rlGate r) with h0 | h0 <;>
  rcases Bool.eq_false_or_eq_true ((req.content_length != 0)) with h1 | h1 <;>
  rcases Bool.eq_false_or_eq_true (maxGate r) with h2 | h2 <;>
  rcases Bool.eq_false_or_eq_true (r.require_conditional_request) with h3 | h3 <;>
  rcases Bool.eq_false_or_eq_true ((req.method == "PUT" || req.method == "PATCH")) with h4 | h4 <;>
  rcases Bool.eq_false_or_eq_true ((req.method == "GET" || req.method == "HEAD")) with h5 | h5 <;>
  simp only [h0, h1, h2, h3, h4, h5, Bool.false_eq_true, Bool.false_and, Bool.true_and, Bool.and_false, Bool.and_true, Bool.false_or, Bool.true_or, Bool.or_false, Bool.or_true, if_true, if_false] <;>
  (refine ⟨by decide, fun c hc => ?_, fun hn => ?_⟩ <;>
        first
          | (cases hc <;> exact ⟨by decide, by decide, fun n hn2 => by cases hn2 <;> rfl⟩)
          | (cases hn <;> decide))


set_option maxHeartbeats 1000000 in
/-- C5: an OPTIONS request with OPTIONS allowed, once the 503/401/403/429
checks pass, short-circuits to the default OPTIONS handler: no
media-type, method-allowed, acceptability, existence or conditional check
runs (the trace stops at the OPTIONS step) and the method-handler table is
never consulted; the response keeps the fresh 200 status and carries
`Allow` (comma-joined alphabetically sorted allowed methods),
`Content-Length: 0`, no-cache `Cache-Control` and `Pragma`, and
`Accept-Patch` (the joined supported patch types) exactly when PATCH is
allowed. -/
theorem options_short_circuit (r : Resource) (req : Request)
    (hm : req.method = "OPTIONS")
    (hallow : ("OPTIONS" : String) ∈ r.allowed_methods)
    (h503 : truthy r.unavailable = false)
    (h401 : r.check_unauthorized req = false)
    (h403 : r.check_forbidden req = false)
    (h429 : r.check_too_many_requests req = false) :
    (process r req {}).failed = some Check.options ∧
    (process r req {}).trace =
      [Check.c503, Check.c401, Check.c403] ++ gatedTrace (rlGate r) Check.c429 ++
        [Check.options] ∧
    Check.handler ∉ (process r req {}).trace ∧
    (process r req {}).response.status = 200 ∧
    headerGet (process r req {}).response.headers ("Allow") =
      some (joinComma (sortStrings r.allowed_methods)) ∧
    headerGet (process r req {}).response.headers ("Content-Length") = some (toString 0) ∧
    headerGet (process r req {}).response.headers ("Cache-Control") = some ("no-cache") ∧
    headerGet (process r req {}).response.headers ("Pragma") = some ("no-cache") ∧
    (("PATCH" : String) ∈ r.allowed_methods →
      headerGet (process r req {}).response.headers ("Accept-Patch") =
        some (joinComma r.supported_patch_types)) ∧
    (("PATCH" : String) ∉ r.allowed_methods →
      headerGet (process r req {}).response.headers ("Accept-Patch") = none) := by
  have hsu : check_service_unavailable r {} = (false, {}) := by
    simp [check_service_unavailable, h503]
  have e1 : lowerKey ("Accept-Patch") = ("accept-patch") := by decide
  have e2 : lowerKey ("Allow") = ("allow") := by decide
  have e3 : lowerKey ("Content-Length") = ("content-length") := by decide
  have e4 : lowerKey ("Cache-Control") = ("cache-control") := by decide
  have e5 : lowerKey ("Pragma") = ("pragma") := by decide
  by_cases hp : ("PATCH" : String) ∈ r.allowed_methods <;>
  rcases Bool.eq_false_or_eq_true (rlGate r) with hrl | hrl <;>
    simp [process, gatedTrace, hsu, hm, hallow, h401, h403, h429, hp, hrl,
      options_handler, Response.setHeader, setH, headerGet, e1, e2, e3, e4, e5]

/-- A resource allowing GET, OPTIONS and PATCH, used to witness the
OPTIONS short-circuit. -/
def optionsDemo : Resource :=
  { allowed_methods := ["GET", "OPTIONS", "PATCH"] }

/-- C5 witness: the OPTIONS short-circuit theorem applied to a concrete
resource and request gives 200 with the expected headers. -/
theorem options_short_circuit_witness :
    (process optionsDemo { method := "OPTIONS" } {}).response.status = 200 ∧
    headerGet (process optionsDemo { method := "OPTIONS" } {}).response.headers ("Allow") =
      some ("GET, OPTIONS, PATCH") ∧
    headerGet (process optionsDemo { method := "OPTIONS" } {}).response.headers
      ("Accept-Patch") = some ("application/json") := by
  have h := options_short_circuit optionsDemo { method := "OPTIONS" } rfl (by decide)
    rfl rfl rfl rfl
  refine ⟨h.2.2.2.1, ?_, ?_⟩
  · rw [h.2.2.2.2.1]
    decide
  · rw [h.2.2.2.2.2.2.2.2.1 (by decide)]
    decide


set_option maxHeartbeats 2000000 in
/-- C6: on a GET or HEAD request that cleanly reaches the conditional
block, with ETags enabled an `If-None-Match` equal to the current entity
tag yields 304 with an empty body and the handler skipped, while a
differing value lets the normal path run the handler; with Last-Modified
enabled an `If-Modified-Since` header yields 304 exactly when the raw
header string equals the `http_date`-formatted current last-modified
value — string equality, not temporal comparison. -/
theorem conditional_get_not_modified (r : Resource) (req : Request)
    (hm : req.method = "GET" ∨ req.method = "HEAD")
    (h503 : truthy r.unavailable = false)
    (h401 : r.check_unauthorized req = false)
    (h403 : r.check_forbidden req = false)
    (h429 : r.check_too_many_requests req = false)
    (hbody : req.content_length = 0)
    (hallow : req.method ∈ r.allowed_methods)
    (hacc : headerGet req.headers ("accept") = none)
    (h404 : r.check_not_found req = false)
    (h410 : r.check_gone req = false) :
    (r.use_etags = true → r.use_last_modified = false →
      ∀ v t, headerGet req.headers ("if-none-match") = some v → r.get_etag req = some t →
        ((v = t →
            (resource_call r req).status = 304 ∧ (resource_call r req).data = "" ∧
            (process r req {}).failed = some Check.c304 ∧
            Check.handler ∉ (process r req {}).trace) ∧
          (v ≠ t →
            (process r req {}).failed = none ∧
            (process r req {}).trace.getLast? = some Check.handler))) ∧
    (r.use_last_modified = true → headerGet req.headers ("if-none-match") = none →
      ∀ s, headerGet req.headers ("if-modified-since") = some s →
        ((process r req {}).failed = some Check.c304 ↔
          s = http_date (r.get_last_modified req))) := by
  have hsu : check_service_unavailable r {} = (false, {}) := by
    simp [check_service_unavailable, h503]
  have hopt : (req.method == "OPTIONS") = false := by
    rcases hm with h | h <;> rw [h] <;> decide
  have hpp : (req.method == "PUT" || req.method == "PATCH") = false := by
    rcases hm with h | h <;> rw [h] <;> decide
  have hgh : (req.method == "GET" || req.method == "HEAD") = true := by
    rcases hm with h | h <;> rw [h] <;> decide
  constructor
  · intro he hlm v t hv ht
    constructor
    · intro hveq
      rcases hsup : r.supported_accept_types with _ | ⟨t0, ts⟩ <;>
      rcases Bool.eq_false_or_eq_true (rlGate r) with hrl | hrl <;>
        simp [process, resource_call, gatedTrace, hsu, hopt, hpp, hgh, h401, h403, h429, hbody, hallow,
          hacc, h404, h410, he, hlm, hv, ht, hveq, hsup, hrl, headerHas, ifNoneMatchEq,
          check_method_not_allowed, check_not_acceptable, accept_type_supported,
          accept_default, accept_language_supported, accept_charset_supported,
          accept_encoding_supported, setStatus]
    · intro hne
      rcases hsup : r.supported_accept_types with _ | ⟨t0, ts⟩ <;>
      rcases Bool.eq_false_or_eq_true (rlGate r) with hrl | hrl <;>
        simp [process, gatedTrace, hsu, hopt, hpp, hgh, h401, h403, h429, hbody, hallow,
          hacc, h404, h410, he, hlm, hv, ht, hne, hsup, hrl, headerHas, ifNoneMatchEq,
          check_method_not_allowed, check_not_acceptable, accept_type_supported,
          accept_default, accept_language_supported, accept_charset_supported,
          accept_encoding_supported]
  · intro hlm2 hnm s hs
    by_cases heq : s = http_date (r.get_last_modified req)
    · rcases hsup : r.supported_accept_types with _ | ⟨t0, ts⟩ <;>
        simp [process, gatedTrace, hsu, hopt, hpp, hgh, h401, h403, h429, hbody, hallow,
          hacc, h404, h410, hlm2, hnm, hs, heq, hsup, headerHas, ifNoneMatchEq,
          ifModifiedSinceEq, check_method_not_allowed, check_not_acceptable,
          accept_type_supported, accept_default, accept_language_supported,
          accept_charset_supported, accept_encoding_supported]
    · rcases hsup : r.supported_accept_types with _ | ⟨t0, ts⟩ <;>
        simp [process, gatedTrace, hsu, hopt, hpp, hgh, h401, h403, h429, hbody, hallow,
          hacc, h404, h410, hlm2, hnm, hs, heq, hsup, headerHas, ifNoneMatchEq,
          ifModifiedSinceEq, check_method_not_allowed, check_not_acceptable,
          accept_type_supported, accept_default, accept_language_supported,
          accept_charset_supported, accept_encoding_supported]

/-- A resource with ETags and a fixed current tag, for the conditional
GET/HEAD witness. -/
def etagDemo : Resource :=
  { allowed_methods := ["GET", "HEAD"], get_etag := fun _ => some ("abc") }

/-- A resource with Last-Modified conditional support and a fixed
last-modified instant, for the conditional GET witness. -/
def lastModifiedDemo : Resource :=
  { allowed_methods := ["GET"], use_etags := false, use_last_modified := true,
    get_last_modified := fun _ => 784111777 }

/-- C6 witness: at concrete resources and requests, a matching
`If-None-Match` gives 304 on a GET and on a HEAD, a mismatching one
reaches the handler, and an `If-Modified-Since` equal to the formatted
last-modified gives 304. -/
theorem conditional_get_not_modified_witness :
    (resource_call etagDemo
        { method := "GET", headers := [("If-None-Match", "abc")] }).status = 304 ∧
    (resource_call etagDemo
        { method := "HEAD", headers := [("If-None-Match", "abc")] }).status = 304 ∧
    (process etagDemo { method := "GET", headers := [("If-None-Match", "xyz")] } {}).failed =
      none ∧
    (process lastModifiedDemo
        { method := "GET",
          headers := [("If-Modified-Since", "Sun, 06 Nov 1994 08:49:37 GMT")] } {}).failed =
      some Check.c304 := by
  refine ⟨?_, ?_, ?_, ?_⟩
  · exact (((conditional_get_not_modified etagDemo
      { method := "GET", headers := [("If-None-Match", "abc")] }
      (Or.inl rfl) rfl rfl rfl rfl rfl (by decide) (by decide) rfl rfl).1
      rfl rfl ("abc") ("abc") (by decide) rfl).1 rfl).1
  · exact (((conditional_get_not_modified etagDemo
      { method := "HEAD", headers := [("If-None-Match", "abc")] }
      (Or.inr rfl) rfl rfl rfl rfl rfl (by decide) (by decide) rfl rfl).1
      rfl rfl ("abc") ("abc") (by decide) rfl).1 rfl).1
  · exact ((conditional_get_not_modified etagDemo
      { method := "GET", headers := [("If-None-Match", "xyz")] }
      (Or.inl rfl) rfl rfl rfl rfl rfl (by decide) (by decide) rfl rfl).1
      rfl rfl ("xyz") ("abc") (by decide) rfl).2 (by decide) |>.1
  · exact ((conditional_get_not_modified lastModifiedDemo
      { method := "GET",
        headers := [("If-Modified-Since", "Sun, 06 Nov 1994 08:49:37 GMT")] }
      (Or.inl rfl) rfl rfl rfl rfl rfl (by decide) (by decide) rfl rfl).2
      rfl (by decide) ("Sun, 06 Nov 1994 08:49:37 GMT") (by decide)).mpr (by decide)


set_option maxHeartbeats 2000000 in
/-- C7: on a PUT or PATCH request that cleanly reaches the conditional
block of a resource with `require_conditional_request` and ETags enabled:
a missing `If-Match` header yields 428 with the guidance text naming the
required header as the body; an `If-Match` differing from the current
entity tag yields 412 with the handler never invoked; an `If-Match`
equal to the current tag proceeds to the handler. -/
theorem conditional_put_preconditions (r : Resource) (req : Request)
    (hm : req.method = "PUT" ∨ req.method = "PATCH")
    (h503 : truthy r.unavailable = false)
    (h401 : r.check_unauthorized req = false)
    (h403 : r.check_forbidden req = false)
    (h429 : r.check_too_many_requests req = false)
    (hbody : req.content_length = 0)
    (hallow : req.method ∈ r.allowed_methods)
    (hacc : headerGet req.headers ("accept") = none)
    (h404 : r.check_not_found req = false)
    (h410 : r.check_gone req = false)
    (hrc : r.require_conditional_request = true)
    (he : r.use_etags = true)
    (hlm : r.use_last_modified = false) :
    (headerGet req.headers ("if-match") = none →
      (process r req {}).failed = some Check.c428 ∧
      (resource_call r req).status = 428 ∧
      (resource_call r req).data =
        "This request is required to be conditional; try using \"If-Match\"") ∧
    (∀ v t, headerGet req.headers ("if-match") = some v → r.get_etag req = some t →
      ((v ≠ t →
          (process r req {}).failed = some Check.c412 ∧
          (resource_call r req).status = 412 ∧
          Check.handler ∉ (process r req {}).trace) ∧
        (v = t →
          (process r req {}).failed = none ∧
          (process r req {}).trace.getLast? = some Check.handler))) := by
  have hsu : check_service_unavailable r {} = (false, {}) := by
    simp [check_service_unavailable, h503]
  have hopt : (req.method == "OPTIONS") = false := by
    rcases hm with h | h <;> rw [h] <;> decide
  have hpp : (req.method == "PUT" || req.method == "PATCH") = true := by
    rcases hm with h | h <;> rw [h] <;> decide
  have hgh : (req.method == "GET" || req.method == "HEAD") = false := by
    rcases hm with h | h <;> rw [h] <;> decide
  constructor
  · intro hnm
    rcases hsup : r.supported_accept_types with _ | ⟨t0, ts⟩ <;>
    rcases Bool.eq_false_or_eq_true (rlGate r) with hrl | hrl <;>
      simp [process, resource_call, gatedTrace, hsu, hopt, hpp, hgh, h401, h403, h429, hbody, hallow,
        hacc, h404, h410, hrc, he, hlm, hnm, hsup, hrl, headerHas,
        check_method_not_allowed, check_not_acceptable, accept_type_supported,
        accept_default, accept_language_supported, accept_charset_supported,
        accept_encoding_supported, check_precondition_required, setStatus,
        Response.setHeader]
  · intro v t hv ht
    constructor
    · intro hne
      rcases hsup : r.supported_accept_types with _ | ⟨t0, ts⟩ <;>
      rcases Bool.eq_false_or_eq_true (rlGate r) with hrl | hrl <;>
        simp [process, resource_call, gatedTrace, hsu, hopt, hpp, hgh, h401, h403, h429, hbody, hallow,
          hacc, h404, h410, hrc, he, hlm, hv, ht, hne, hsup, hrl, headerHas,
          check_method_not_allowed, check_not_acceptable, accept_type_supported,
          accept_default, accept_language_supported, accept_charset_supported,
          accept_encoding_supported, check_precondition_required,
          check_precondition_failed, setStatus]
    · intro hveq
      rcases hsup : r.supported_accept_types with _ | ⟨t0, ts⟩ <;>
      rcases Bool.eq_false_or_eq_true (rlGate r) with hrl | hrl <;>
        simp [process, gatedTrace, hsu, hopt, hpp, hgh, h401, h403, h429, hbody, hallow,
          hacc, h404, h410, hrc, he, hlm, hv, ht, hveq, hsup, hrl, headerHas,
          check_method_not_allowed, check_not_acceptable, accept_type_supported,
          accept_default, accept_language_supported, accept_charset_supported,
          accept_encoding_supported, check_precondition_required,
          check_precondition_failed]

/-- A conditional-request-requiring resource with a fixed current entity
tag, for the conditional PUT/PATCH witness. -/
def condDemo : Resource :=
  { allowed_methods := ["PUT", "PATCH"], require_conditional_request := true,
    get_etag := fun _ => some ("abc") }

/-- C7 witness: at a concrete resource, a PUT without `If-Match` yields
428 and the guidance body, as does a PATCH; `If-Match: wrong` yields 412;
`If-Match: abc` runs the handler. -/
theorem conditional_put_preconditions_witness :
    (resource_call condDemo { method := "PUT" }).status = 428 ∧
    (resource_call condDemo { method := "PUT" }).data =
      "This request is required to be conditional; try using \"If-Match\"" ∧
    (resource_call condDemo { method := "PATCH" }).status = 428 ∧
    (process condDemo { method := "PUT", headers := [("If-Match", "wrong")] } {}).failed =
      some Check.c412 ∧
    (process condDemo { method := "PATCH", headers := [("If-Match", "abc")] } {}).failed =
      none := by
  refine ⟨?_, ?_, ?_, ?_, ?_⟩
  · exact ((conditional_put_preconditions condDemo { method := "PUT" }
      (Or.inl rfl) rfl rfl rfl rfl rfl (by decide) (by decide) rfl rfl rfl rfl rfl).1
      (by decide)).2.1
  · exact ((conditional_put_preconditions condDemo { method := "PUT" }
      (Or.inl rfl) rfl rfl rfl rfl rfl (by decide) (by decide) rfl rfl rfl rfl rfl).1
      (by decide)).2.2
  · exact ((conditional_put_preconditions condDemo { method := "PATCH" }
      (Or.inr rfl) rfl rfl rfl rfl rfl (by decide) (by decide) rfl rfl rfl rfl rfl).1
      (by decide)).2.1
  · exact (((conditional_put_preconditions condDemo
      { method := "PUT", headers := [("If-Match", "wrong")] }
      (Or.inl rfl) rfl rfl rfl rfl rfl (by decide) (by decide) rfl rfl rfl rfl rfl).2
      ("wrong") ("abc") (by decide) rfl).1 (by decide)).1
  · exact (((conditional_put_preconditions condDemo
      { method := "PATCH", headers := [("If-Match", "abc")] }
      (Or.inr rfl) rfl rfl rfl rfl rfl (by decide) (by decide) rfl rfl rfl rfl rfl).2
      ("abc") ("abc") (by decide) rfl).2 rfl).1


set_option maxHeartbeats 8000000 in
/-- Inversion facts about the body checks: a 415 or 413 failure, or a 413
trace entry, can only arise from a non-zero declared content length with
the corresponding check gate open and (for a failure) the check true. -/
theorem process_body_check_inversion (r : Resource) (req : Request) (resp : Response) :
    ((process r req resp).failed = some Check.c415 →
      req.content_length ≠ 0 ∧ check_unsupported_media_type r req = true) ∧
    ((process r req resp).failed = some Check.c413 →
      req.content_length ≠ 0 ∧ maxGate r = true ∧
        check_request_entity_too_large r req = true) ∧
    (Check.c413 ∈ (process r req resp).trace →
      req.content_length ≠ 0 ∧ maxGate r = true) ∧
    (Check.c415 ∈ (process r req resp).trace → req.content_length ≠ 0) := by
  simp only [process, gatedTrace]
  by_cases hA : (check_service_unavailable r resp).1 = true
  · simp only [hA, if_true, if_false]
    simp_all
  simp only [hA, Bool.false_eq_true, Bool.false_and, Bool.true_and, Bool.and_false, Bool.and_true, Bool.false_or, Bool.true_or, Bool.or_false, Bool.or_true, if_true, if_false]
  by_cases hB : r.check_unauthorized req = true
  · simp only [hB, if_true, if_false]
    simp_all
  simp only [hB, Bool.false_eq_true, Bool.false_and, Bool.true_and, Bool.and_false, Bool.and_true, Bool.false_or, Bool.true_or, Bool.or_false, Bool.or_true, if_true, if_false]
  by_cases hC : r.check_forbidden req = true
  · simp only [hC, if_true, if_false]
    simp_all
  simp only [hC, Bool.false_eq_true, Bool.false_and, Bool.true_and, Bool.and_false, Bool.and_true, Bool.false_or, Bool.true_or, Bool.or_false, Bool.or_true, if_true, if_false]
  by_cases hD : (rlGate r && r.check_too_many_requests req) = true
  · simp only [hD, if_true, if_false]
    simp_all
  simp only [hD, Bool.false_eq_true, Bool.false_and, Bool.true_and, Bool.and_false, Bool.and_true, Bool.false_or, Bool.true_or, Bool.or_false, Bool.or_true, if_true, if_false]
  by_cases hE : (req.method == "OPTIONS" && r.allowed_methods.contains ("OPTIONS")) = true
  · simp only [hE, if_true, if_false]
    rcases Bool.eq_false_or_eq_true (rlGate r) with h0 | h0 <;>
    simp only [h0, Bool.false_eq_true, Bool.false_and, Bool.true_and, Bool.and_false, Bool.and_true, Bool.false_or, Bool.true_or, Bool.or_false, Bool.or_true, if_true, if_false] <;>
    simp_all
  simp only [hE, Bool.false_eq_true, Bool.false_and, Bool.true_and, Bool.and_false, Bool.and_true, Bool.false_or, Bool.true_or, Bool.or_false, Bool.or_true, if_true, if_false]
  by_cases hF : ((req.content_length != 0) && check_unsupported_media_type r req) = true
  · simp only [hF, if_true, if_false]
    rcases Bool.eq_false_or_eq_true (rlGate r) with h0 | h0 <;>
    simp only [h0, Bool.false_eq_true, Bool.false_and, Bool.true_and, Bool.and_false, Bool.and_true, Bool.false_or, Bool.true_or, Bool.or_false, Bool.or_true, if_true, if_false] <;>
    simp_all
  simp only [hF, Bool.false_eq_true, Bool.false_and, Bool.true_and, Bool.and_false, Bool.and_true, Bool.false_or, Bool.true_or, Bool.or_false, Bool.or_true, if_true, if_false]
  by_cases hG : ((req.content_length != 0) && maxGate r && check_request_entity_too_large r req) = true
  · simp only [hG, if_true, if_false]
    rcases Bool.eq_false_or_eq_true (rlGate r) with h0 | h0 <;>
    simp only [h0, Bool.false_eq_true, Bool.false_and, Bool.true_and, Bool.and_false, Bool.and_true, Bool.false_or, Bool.true_or, Bool.or_false, Bool.or_true, if_true, if_false] <;>
    simp_all
  simp only [hG, Bool.false_eq_true, Bool.false_and, Bool.true_and, Bool.and_false, Bool.and_true, Bool.false_or, Bool.true_or, Bool.or_false, Bool.or_true, if_true, if_false]
  by_cases hH : (check_method_not_allowed r req (check_service_unavailable r resp).2).1 = true
  · simp only [hH, if_true, if_false]
    rcases Bool.eq_false_or_eq_true (rlGate r) with h0 | h0 <;>
    rcases Bool.eq_false_or_eq_true ((req.content_length != 0)) with h1 | h1 <;>
    rcases Bool.eq_false_or_eq_true (maxGate r) with h2 | h2 <;>
    simp only [h0, h1, h2, Bool.false_eq_true, Bool.false_and, Bool.true_and, Bool.and_false, Bool.and_true, Bool.false_or, Bool.true_or, Bool.or_false, Bool.or_true, if_true, if_false] <;>
    simp_all
  simp only [hH, Bool.false_eq_true, Bool.false_and, Bool.true_and, Bool.and_false, Bool.and_true, Bool.false_or, Bool.true_or, Bool.or_false, Bool.or_true, if_true, if_false]
  by_cases hI : (check_not_acceptable r req (check_method_not_allowed r req (check_service_unavailable r resp).2).2).1 = true
  · simp only [hI, if_true, if_false]
    rcases Bool.eq_false_or_eq_true (rlGate r) with h0 | h0 <;>
    rcases Bool.eq_false_or_eq_true ((req.content_length != 0)) with h1 | h1 <;>
    rcases Bool.eq_false_or_eq_true (maxGate r) with h2 | h2 <;>
    simp only [h0, h1, h2, Bool.false_eq_true, Bool.false_and, Bool.true_and, Bool.and_false, Bool.and_true, Bool.false_or, Bool.true_or, Bool.or_false, Bool.or_true, if_true, if_false] <;>
    simp_all
  simp only [hI, Bool.false_eq_true, Bool.false_and, Bool.true_and, Bool.and_false, Bool.and_true, Bool.false_or, Bool.true_or, Bool.or_false, Bool.or_true, if_true, if_false]
  by_cases hJ : r.check_not_found req = true
  · simp only [hJ, if_true, if_false]
    rcases Bool.eq_false_or_eq_true (rlGate r) with h0 | h0 <;>
    rcases Bool.eq_false_or_eq_true ((req.content_length != 0)) with h1 | h1 <;>
    rcases Bool.eq_false_or_eq_true (maxGate r) with h2 | h2 <;>
    simp only [h0, h1, h2, Bool.false_eq_true, Bool.false_and, Bool.true_and, Bool.and_false, Bool.and_true, Bool.false_or, Bool.true_or, Bool.or_false, Bool.or_true, if_true, if_false] <;>
    simp_all
  simp only [hJ, Bool.false_eq_true, Bool.false_and, Bool.true_and, Bool.and_false, Bool.and_true, Bool.false_or, Bool.true_or, Bool.or_false, Bool.or_true, if_true, if_false]
  by_cases hK : r.check_gone req = true
  · simp only [hK, if_true, if_false]
    rcases Bool.eq_false_or_eq_true (rlGate r) with h0 | h0 <;>
    rcases Bool.eq_false_or_eq_true ((req.content_length != 0)) with h1 | h1 <;>
    rcases Bool.eq_false_or_eq_true (maxGate r) with h2 | h2 <;>
    simp only [h0, h1, h2, Bool.false_eq_true, Bool.false_and, Bool.true_and, Bool.and_false, Bool.and_true, Bool.false_or, Bool.true_or, Bool.or_false, Bool.or_true, if_true, if_false] <;>
    simp_all
  simp only [hK, Bool.false_eq_true, Bool.false_and, Bool.true_and, Bool.and_false, Bool.and_true, Bool.false_or, Bool.true_or, Bool.or_false, Bool.or_true, if_true, if_false]
  by_cases hL : ((if (r.require_conditional_request && (req.method == "PUT" || req.method == "PATCH")) = true then check_precondition_required r req (check_not_acceptable r req (check_method_not_allowed r req (check_service_unavailable r resp).2).2).2 else (false, (check_not_acceptable r req (check_method_not_allowed r req (check_service_unavailable r resp).2).2).2))).1 = true
  · simp only [hL, if_true, if_false]
    rcases Bool.eq_false_or_eq_true (rlGate r) with h0 | h0 <;>
    rcases Bool.eq_false_or_eq_true ((req.content_length != 0)) with h1 | h1 <;>
    rcases Bool.eq_false_or_eq_true (maxGate r) with h2 | h2 <;>
    simp only [h0, h1, h2, Bool.false_eq_true, Bool.false_and, Bool.true_and, Bool.and_false, Bool.and_true, Bool.false_or, Bool.true_or, Bool.or_false, Bool.or_true, if_true, if_false] <;>
    simp_all
  simp only [hL, Bool.false_eq_true, Bool.false_and, Bool.true_and, Bool.and_false, Bool.and_true, Bool.false_or, Bool.true_or, Bool.or_false, Bool.or_true, if_true, if_false]
  by_cases hM : ((req.method == "PUT" || req.method == "PATCH") && check_precondition_failed r req) = true
  · simp only [hM, if_true, if_false]
    rcases Bool.eq_false_or_eq_true (rlGate r) with h0 | h0 <;>
    rcases Bool.eq_false_or_eq_true ((req.content_length != 0)) with h1 | h1 <;>
    rcases Bool.eq_false_or_eq_true (maxGate r) with h2 | h2 <;>
    rcases Bool.eq_false_or_eq_true (r.require_conditional_request) with h3 | h3 <;>
    rcases Bool.eq_false_or_eq_true ((req.method == "PUT" || req.method == "PATCH")) with h4 | h4 <;>
    simp only [h0, h1, h2, h3, h4, Bool.false_eq_true, Bool.false_and, Bool.true_and, Bool.and_false, Bool.and_true, Bool.false_or, Bool.true_or, Bool.or_false, Bool.or_true, if_true, if_false] <;>
    simp_all
  simp only [hM, Bool.false_eq_true, Bool.false_and, Bool.true_and, Bool.and_false, Bool.and_true, Bool.false_or, Bool.true_or, Bool.or_false, Bool.or_true, if_true, if_false]
  by_cases hN : ((req.method == "GET" || req.method == "HEAD") && r.use_etags && headerHas req.headers ("if-none-match") && ifNoneMatchEq r req) = true
  · simp only [hN, if_true, if_false]
    rcases Bool.eq_false_or_eq_true (rlGate r) with h0 | h0 <;>
    rcases Bool.eq_false_or_eq_true ((req.content_length != 0)) with h1 | h1 <;>
    rcases Bool.eq_false_or_eq_true (maxGate r) with h2 | h2 <;>
    rcases Bool.eq_false_or_eq_true (r.require_conditional_request) with h3 | h3 <;>
    rcases Bool.eq_false_or_eq_true ((req.method == "PUT" || req.method == "PATCH")) with h4 | h4 <;>
    simp only [h0, h1, h2, h3, h4, Bool.false_eq_true, Bool.false_and, Bool.true_and, Bool.and_false, Bool.and_true, Bool.false_or, Bool.true_or, Bool.or_false, Bool.or_true, if_true, if_false] <;>
    simp_all
  simp only [hN, Bool.false_eq_true, Bool.false_and, Bool.true_and, Bool.and_false, Bool.and_true, Bool.false_or, Bool.true_or, Bool.or_false, Bool.or_true, if_true, if_false]
  by_cases hO : ((req.method == "GET" || req.method == "HEAD") && r.use_last_modified && headerHas req.headers ("if-modified-since") && ifModifiedSinceEq r req) = true
  · simp only [hO, if_true, if_false]
    rcases Bool.eq_false_or_eq_true (rlGate r) with h0 | h0 <;>
    rcases Bool.eq_false_or_eq_true ((req.content_length != 0)) with h1 | h1 <;>
    rcases Bool.eq_false_or_eq_true (maxGate r) with h2 | h2 <;>
    rcases Bool.eq_false_or_eq_true (r.require_conditional_request) with h3 | h3 <;>
    rcases Bool.eq_false_or_eq_true ((req.method == "PUT" || req.method == "PATCH")) with h4 | h4 <;>
    simp only [h0, h1, h2, h3, h4, Bool.false_eq_true, Bool.false_and, Bool.true_and, Bool.and_false, Bool.and_true, Bool.false_or, Bool.true_or, Bool.or_false, Bool.or_true, if_true, if_false] <;>
    simp_all
  simp only [hO, Bool.false_eq_true, Bool.false_and, Bool.true_and, Bool.and_false, Bool.and_true, Bool.false_or, Bool.true_or, Bool.or_false, Bool.or_true, if_true, if_false]
  rcases Bool.eq_false_or_eq_true (rlGate r) with h0 | h0 <;>
  rcases Bool.eq_false_or_eq_true ((req.content_length != 0)) with h1 | h1 <;>
  rcases Bool.eq_false_or_eq_true (maxGate r) with h2 | h2 <;>
  rcases Bool.eq_false_or_eq_true (r.require_conditional_request) with h3 | h3 <;>
  rcases Bool.eq_false_or_eq_true ((req.method == "PUT" || req.method == "PATCH")) with h4 | h4 <;>
  rcases Bool.eq_false_or_eq_true ((req.method == "GET" || req.method == "HEAD")) with h5 | h5 <;>
  simp only [h0, h1, h2, h3, h4, h5, Bool.false_eq_true, Bool.false_and, Bool.true_and, Bool.and_false, Bool.and_true, Bool.false_or, Bool.true_or, Bool.or_false, Bool.or_true, if_true, if_false] <;>
  simp_all

/-- C8: the 413 entity-too-large check is evaluated only when the request
declares a non-zero content length and a maximum is configured (second
conjunct, over all resources and requests), and — on a request that
reaches the body checks of a resource with maximum `M` — it fails exactly
when the declared length strictly exceeds `M`. -/
theorem request_entity_too_large_413 (r : Resource) (req : Request) (M : Nat)
    (h503 : truthy r.unavailable = false)
    (h401 : r.check_unauthorized req = false)
    (h403 : r.check_forbidden req = false)
    (h429 : r.check_too_many_requests req = false)
    (hopt : (req.method == "OPTIONS") = false)
    (hbody : req.content_length ≠ 0)
    (hmax : r.max_request_entity_length = some M)
    (hM : M ≠ 0)
    (h415 : check_unsupported_media_type r req = false) :
    ((process r req {}).failed = some Check.c413 ↔ M < req.content_length) ∧
    (∀ (r' : Resource) (req' : Request) (resp' : Response),
      req'.content_length = 0 ∨ maxGate r' = false →
      Check.c413 ∉ (process r' req' resp').trace) := by
  have hsu : check_service_unavailable r {} = (false, {}) := by
    simp [check_service_unavailable, h503]
  constructor
  · constructor
    · intro h413
      have hinv := (process_body_check_inversion r req {}).2.1 h413
      simpa [check_request_entity_too_large, hmax] using hinv.2.2
    · intro hgt
      simp [process, gatedTrace, hsu, h401, h403, h429, hopt, hbody, hmax, hM, h415,
        check_request_entity_too_large, maxGate, hgt]
  · intro r2 req2 resp2 hdisj hmem
    have hinv := (process_body_check_inversion r2 req2 resp2).2.2.1 hmem
    rcases hdisj with h | h
    · exact hinv.1 h
    · rw [hinv.2] at h
      cases h

/-- A resource with a configured maximum request entity length, for the
413 witness. -/
def maxLenDemo : Resource :=
  { allowed_methods := ["PUT"], max_request_entity_length := some 100 }

/-- C8 witness: declared length 101 fails with 413; declared length 100
passes the 413 check. -/
theorem request_entity_too_large_413_witness :
    (process maxLenDemo { method := "PUT", content_length := 101 } {}).failed =
      some Check.c413 ∧
    (process maxLenDemo { method := "PUT", content_length := 100 } {}).failed ≠
      some Check.c413 := by
  constructor
  · exact ((request_entity_too_large_413 maxLenDemo
      { method := "PUT", content_length := 101 } 100
      rfl rfl rfl rfl rfl (by decide) rfl (by decide) (by decide)).1).mpr (by decide)
  · intro hcontra
    exact absurd (((request_entity_too_large_413 maxLenDemo
      { method := "PUT", content_length := 100 } 100
      rfl rfl rfl rfl rfl (by decide) rfl (by decide) (by decide)).1).mp hcontra)
      (by decide)


/-- C10: a request with a non-zero declared content length but no
`Content-Type` header (or an empty value) always passes the
unsupported-media-type check — it can never fail with 415 — and the
content-encoding/content-language hooks are never consulted: the result
holds for every resource, in particular for arbitrary overrides of those
hooks and arbitrary `supported_content_types`. -/
theorem missing_content_type_never_415 (r : Resource) (req : Request) (resp : Response)
    (hbody : req.content_length ≠ 0)
    (hct : headerGet req.headers ("content-type") = none ∨ req.content_type = "") :
    check_unsupported_media_type r req = false ∧
    (process r req resp).failed ≠ some Check.c415 := by
  have hchk : check_unsupported_media_type r req = false := by
    rcases hct with h | h
    · simp [check_unsupported_media_type, headerHas, h]
    · simp [check_unsupported_media_type, headerHas, h]
  refine ⟨hchk, fun h415 => ?_⟩
  have hinv := (process_body_check_inversion r req resp).1 h415
  rw [hinv.2] at hchk
  cases hchk

/-- A resource whose content-encoding and content-language hooks always
reject and which supports no content types, for the C10 witness. -/
def strictDemo : Resource :=
  { allowed_methods := ["PUT"], supported_content_types := [],
    content_encoding_supported := fun _ => false,
    content_language_supported := fun _ => false }

/-- C10 witness: a body-bearing request without a `Content-Type` header
passes the unsupported-media-type check even on a resource that rejects
every content type, encoding and language. -/
theorem missing_content_type_never_415_witness :
    check_unsupported_media_type strictDemo
      { method := "PUT", content_length := 5,
        headers := [("Content-Encoding", "gzip"), ("Content-Language", "en")] } = false ∧
    (process strictDemo
      { method := "PUT", content_length := 5,
        headers := [("Content-Encoding", "gzip"), ("Content-Language", "en")] } {}).failed ≠
      some Check.c415 :=
  missing_content_type_never_415 strictDemo
    { method := "PUT", content_length := 5,
      headers := [("Content-Encoding", "gzip"), ("Content-Language", "en")] } {}
    (by decide) (Or.inl (by decide))


/-- A resource supporting only `application/json` (the default), for the
negotiation theorems. -/
def negotiationDemo : Resource :=
  { allowed_methods := ["GET"] }

/-- The request `Accept: text/plain;q=0, */*` as werkzeug parses it (the
wildcard gets the default quality 1). -/
def zeroWildcardReq : Request :=
  { method := "GET", headers := [("Accept", "text/plain;q=0, */*")],
    accept := [("text/plain", 0), ("*/*", 1000)] }

/-- C1 counterexample: against a resource supporting only
`application/json`, the request `Accept: text/plain;q=0, */*` — which the
claim says must succeed with the default type chosen — in fact fails
negotiation and yields 406: werkzeug's `accept_mimetypes['*/*']` lookup
matches the highest-quality entry of the sorted preference list (`*/*`
matches every entry), so it returns 1, not 0, and the fallback branch is
not taken. -/
theorem accept_wildcard_zero_counterexample :
    (accept_type_supported negotiationDemo zeroWildcardReq {}).1 = false ∧
    (resource_call negotiationDemo zeroWildcardReq).status = 406 := by
  constructor
  · decide
  · decide

/-- C1 amended: when the `Accept` preference list has no overlap with the
supported accept types, negotiation succeeds iff werkzeug's wildcard
quality lookup `accept_mimetypes['*/*']` returns 0 — i.e. iff the
highest-quality slash-bearing entry of the client's list has quality 0 —
and in that fallback case the chosen type is the resource's default
(first supported) type.  (Thus `Accept: text/plain` yields 406, but so
does `Accept: text/plain;q=0, */*`, since `*/*` resolves to quality 1;
`Accept: text/plain;q=0` succeeds with the default type.) -/
theorem accept_negotiation_amended (r : Resource) (req : Request) (resp : Response)
    (hacc : headerHas req.headers ("accept") = true)
    (hover : findAccepted (accept_mimetypes req) r.supported_accept_types = none) :
    ((accept_type_supported r req resp).1 = true ↔
      acceptQuality (accept_mimetypes req) ("*/*") = 0) ∧
    (acceptQuality (accept_mimetypes req) ("*/*") = 0 →
      ∀ t ts, r.supported_accept_types = t :: ts →
        (accept_type_supported r req resp).2.accept_type = some t) := by
  have hfalse : ¬ acceptQuality (accept_mimetypes req) ("*/*") = 0 →
      (accept_type_supported r req resp).1 = false := by
    intro hq
    simp [accept_type_supported, hacc, hover, hq]
  have htrue : acceptQuality (accept_mimetypes req) ("*/*") = 0 →
      (accept_type_supported r req resp).1 = true := by
    intro hq
    rcases hs : r.supported_accept_types with _ | ⟨t0, ts0⟩ <;>
    rw [hs] at hover <;>
      simp [accept_type_supported, accept_default, hacc, hover, hq, hs]
  refine ⟨⟨fun hfst => ?_, htrue⟩, fun hq t ts hsup => ?_⟩
  · by_cases hq : acceptQuality (accept_mimetypes req) ("*/*") = 0
    · exact hq
    · rw [hfalse hq] at hfst
      cases hfst
  · rw [hsup] at hover
    simp [accept_type_supported, accept_default, hacc, hover, hq, hsup]

/-- The request `Accept: text/plain;q=0`, whose single entry has quality
0, so the wildcard lookup returns 0. -/
def allZeroReq : Request :=
  { method := "GET", headers := [("Accept", "text/plain;q=0")],
    accept := [("text/plain", 0)] }

/-- C1 amended witness: `Accept: text/plain;q=0` has no overlap with
`application/json` but every entry carries quality 0, so negotiation
falls back to success with the default type chosen. -/
theorem accept_negotiation_amended_witness :
    (accept_type_supported negotiationDemo allZeroReq {}).1 = true ∧
    (accept_type_supported negotiationDemo allZeroReq {}).2.accept_type =
      some ("application/json") := by
  have h := accept_negotiation_amended negotiationDemo allZeroReq {} (by decide) (by decide)
  exact ⟨h.1.mpr (by decide), h.2 (by decide) ("application/json") [] rfl⟩

end Resources
